import Mathlib

/-!
# Verification of the AgentOS dev-server core

A shallow embedding of the AgentOS dev server (`dev-server.js`): the
reinforcement-learning scorer, the performance log, the structured-output
parser, the workspace executor's path handling, the failure handler, the
dispatch loop, and the task-creation entry points.  Pure functions of the
source are translated to Lean functions; the mutable server state
(`agents`, `tasks`, `memory.performanceLog`, written files) is threaded
explicitly.  JavaScript numbers are modelled as `Nat` (all quantities in
scope are non-negative integers); `Math.round` on a non-negative ratio
`a / b` is modelled exactly as `(2a + b) / (2b)` in natural division.
-/

namespace AgentOS

/-! ## Small string and list utilities

JavaScript string primitives used by the server, modelled over `List Char`
so that every definition reduces in the kernel. -/

/-- `pat` is a prefix of `l` (JS `String.prototype.startsWith` on char lists). -/
def listPrefix : List Char → List Char → Bool
  | [], _ => true
  | _ :: _, [] => false
  | p :: ps, c :: cs => p == c && listPrefix ps cs

/-- `pat` occurs as a contiguous run inside `l` (JS `String.prototype.includes`). -/
def listInfix (pat : List Char) : List Char → Bool
  | [] => pat.isEmpty
  | c :: cs => listPrefix pat (c :: cs) || listInfix pat cs

/-- JS `s.includes(pat)`. -/
def strContains (s pat : String) : Bool := listInfix pat.data s.data

/-- JS `s.startsWith(pre)`. -/
def strStartsWith (s pre : String) : Bool := listPrefix pre.data s.data

/-- JS `Math.round(num / den)` for non-negative operands: round half up,
  i.e. `⌊num/den + 1/2⌋ = ⌊(2·num + den) / (2·den)⌋`. -/
def jsRound (num den : Nat) : Nat := (2 * num + den) / (2 * den)

/-- Whitespace as matched by the regex class `\s` (ASCII portion). -/
def isWS (c : Char) : Bool := c == ' ' || c == '\t' || c == '\n' || c == '\r'

/-- JS `String.prototype.trim` on char lists. -/
def trimCh (cs : List Char) : List Char :=
  ((cs.dropWhile isWS).reverse.dropWhile isWS).reverse

/-- JS `String.prototype.trimEnd` on char lists. -/
def trimEndCh (cs : List Char) : List Char :=
  (cs.reverse.dropWhile isWS).reverse

/-- ASCII lowercasing of one character. -/
def lowerChar (c : Char) : Char :=
  if 'A' ≤ c && c ≤ 'Z' then Char.ofNat (c.toNat + 32) else c

/-- JS `String.prototype.toLowerCase` (ASCII range). -/
def strToLower (s : String) : String := String.mk (s.data.map lowerChar)

/-! ## Workspace executor: path resolution (`dev-server.js` lines 388-435)

Node's `path.join(root, rel)` on POSIX: concatenate with a separator and
normalize, resolving `.` and `..` segments.  The workspace root is an
absolute path, so a `..` that climbs past the filesystem root is dropped. -/

/-- Split a char list at every occurrence of `sep`. -/
def splitCh (sep : Char) : List Char → List (List Char)
  | [] => [[]]
  | c :: cs =>
    match splitCh sep cs with
    | [] => if c == sep then [[], []] else [[c]]
    | h :: t => if c == sep then [] :: h :: t else (c :: h) :: t

/-- Path components of a path string (split on `/`). -/
def splitPath (s : String) : List String := (splitCh '/' s.data).map String.mk

/-- Normalize a component list: drop empty and `.` segments, let `..` pop
  the previous segment (or vanish at the absolute root). -/
def normComponents (cs : List String) : List String :=
  cs.foldl
    (fun acc c =>
      if c = "" ∨ c = "." then acc
      else if c = ".." then acc.dropLast
      else acc ++ [c])
    []

/-- Node `path.join(root, rel)` for an absolute POSIX `root`. -/
def joinPath (root rel : String) : String :=
  "/" ++ String.intercalate "/" (normComponents (splitPath root ++ splitPath rel))

/-- `p` lies under directory `root`: it is `root` itself or has `root ++ "/"`
  as a prefix.  This is the spec's path-confinement predicate. -/
def isUnder (root p : String) : Bool :=
  p == root || strStartsWith p (root ++ "/")

structure FileIntent where
  path : String
  content : String
deriving DecidableEq

structure ExecIntent where
  cwd : String
  cmd : String
deriving DecidableEq

/-- The absolute paths at which `writeFiles` (lines 424-435) performs its
  writes: `path.join(PROJECT_ROOT, file.path)` for every intent, written
  unconditionally — the source contains no containment check before
  `fs.writeFile`. -/
def writeFilesResolved (root : String) (files : List FileIntent) : List String :=
  files.map (fun f => joinPath root f.path)

/-- The command intents that `runExecBlocks` (lines 391-421) actually
  executes: those whose resolved cwd `path.join(PROJECT_ROOT, block.cwd)`
  passes the source's guard `fullCwd.startsWith(PROJECT_ROOT)`. -/
def runExecBlocks (root : String) (blocks : List ExecIntent) : List ExecIntent :=
  blocks.filter (fun b => strStartsWith (joinPath root b.cwd) root)

/-- A concrete absolute workspace root standing for `PROJECT_ROOT`. -/
def WROOT : String := "/srv/agentos/workspace"

/-! ## RL scorer (`scoreOutput`, lines 186-215)

Inputs as at the call site in `executeTask`: `result.rawOutput` is absent on
the `callModel` result, so `rawOutput` falls back to the raw model text;
`files`, `execBlocks` are the parsed lists (only their lengths matter);
`execResults` is `task.result.execResults`, absent when commands were not
run.  JS truthiness of `execResults`: an empty array is truthy, hence
`Option (List Bool)` with `some []` truthy. -/

inductive TStatus where
  | pending | active | review | completed | failed | cancelled
deriving DecidableEq

/-- `scoreOutput`, transcribed statement by statement from the source's
  sequential accumulation (each `if` adds to the running score). -/
def scoreOutput (status : TStatus) (rawOutput : String) (tokensUsed : Nat)
    (filesLen execLen : Nat) (execResults : Option (List Bool)) : Nat :=
  let s1 := if 0 < filesLen then 20 + min 20 (filesLen * 5) else 0
  let s2 := s1 + (if strContains rawOutput "===FILE===" then 5 else 0)
  let s3 := s2 + (if strContains rawOutput "===CONTENT===" then 5 else 0)
  let s4 := s3 + (if strContains rawOutput "===END_FILE===" then 5 else 0)
  let s5 := s4 +
    (match execResults with
     | some rs =>
       if 0 < execLen then jsRound (15 * (rs.filter id).length) execLen
       else 10
     | none => if execLen = 0 then 10 else 0)
  let s6 := s5 +
    (if 0 < tokensUsed ∧ tokensUsed < 500 then 15
     else if tokensUsed < 2000 then 12
     else if tokensUsed < 5000 then 8
     else if tokensUsed < 10000 then 4
     else 0)
  let s7 := s6 + (if status ≠ TStatus.failed then 15 else 0)
  min 100 (max 0 s7)

/-- The spec's reference scoring formula, exactly as the claim states it:
  a single +15 when the FILE markers (all three) are present, and a token
  bucket that awards nothing for `T = 0`. -/
def specScore (status : TStatus) (rawOutput : String) (tokensUsed : Nat)
    (filesLen execLen : Nat) (execResults : Option (List Bool)) : Nat :=
  let base :=
    (if 0 < filesLen then 20 + min 20 (5 * filesLen) else 0)
    + (if strContains rawOutput "===FILE===" && strContains rawOutput "===CONTENT==="
          && strContains rawOutput "===END_FILE===" then 15 else 0)
    + (match execResults with
       | some rs =>
         if 0 < execLen then jsRound (15 * (rs.filter id).length) execLen
         else 10
       | none => if execLen = 0 then 10 else 0)
    + (if 0 < tokensUsed ∧ tokensUsed < 500 then 15
       else if 500 ≤ tokensUsed ∧ tokensUsed < 2000 then 12
       else if 2000 ≤ tokensUsed ∧ tokensUsed < 5000 then 8
       else if 5000 ≤ tokensUsed ∧ tokensUsed < 10000 then 4
       else 0)
    + (if status ≠ TStatus.failed then 15 else 0)
  min 100 (max 0 base)

/-- The reference formula amended to what the code computes: +5 for each of
  the three FILE markers individually present, and the 12-point token bucket
  also catching `T = 0` (the source's `else if (tokensUsed < 2000)` branch). -/
def specScoreAmended (status : TStatus) (rawOutput : String) (tokensUsed : Nat)
    (filesLen execLen : Nat) (execResults : Option (List Bool)) : Nat :=
  let base :=
    (if 0 < filesLen then 20 + min 20 (filesLen * 5) else 0)
    + (if strContains rawOutput "===FILE===" then 5 else 0)
    + (if strContains rawOutput "===CONTENT===" then 5 else 0)
    + (if strContains rawOutput "===END_FILE===" then 5 else 0)
    + (match execResults with
       | some rs =>
         if 0 < execLen then jsRound (15 * (rs.filter id).length) execLen
         else 10
       | none => if execLen = 0 then 10 else 0)
    + (if 0 < tokensUsed ∧ tokensUsed < 500 then 15
       else if tokensUsed = 0 ∨ (500 ≤ tokensUsed ∧ tokensUsed < 2000) then 12
       else if 2000 ≤ tokensUsed ∧ tokensUsed < 5000 then 8
       else if 5000 ≤ tokensUsed ∧ tokensUsed < 10000 then 4
       else 0)
    + (if status ≠ TStatus.failed then 15 else 0)
  min 100 (max 0 base)

/-! ## Performance log (`recordPerformance` and friends, lines 217-261)

`memory.performanceLog` is a two-level JS object: agent id → category →
`{scores, avg, count}`.  Objects are modelled as association lists with
unique keys (first-match lookup, in-place update). -/

structure SEntry where
  score : Nat
  taskId : Nat
  timestamp : Nat
deriving DecidableEq

structure CatLog where
  scores : List SEntry
  avg : Nat
  count : Nat
deriving DecidableEq

/-- First-match association-list lookup (JS object property access). -/
def lookupA {α : Type} : List (String × α) → String → Option α
  | [], _ => none
  | (k, v) :: t, k' => if k = k' then some v else lookupA t k'

/-- Replace the first binding of `k`, or append one (JS property assignment). -/
def setA {α : Type} : List (String × α) → String → α → List (String × α)
  | [], k, v => [(k, v)]
  | (k', v') :: t, k, v =>
    if k' = k then (k', v) :: t else (k', v') :: setA t k v

def PerfLog : Type := List (String × List (String × CatLog))

def emptyCat : CatLog := ⟨[], 0, 0⟩

def sumScores (l : List SEntry) : Nat := (l.map SEntry.score).sum

/-- The `(agent, category)` cell of the log, defaulting to the fresh cell. -/
def lookCat (plog : PerfLog) (aid ty : String) : CatLog :=
  (lookupA ((lookupA plog aid).getD []) ty).getD emptyCat

/-- One category update inside `recordPerformance`: push the new entry,
  `slice(-20)` on overflow, recompute `count` and `avg`. -/
def recordCat (lg : CatLog) (score tid now : Nat) : CatLog :=
  let sc := lg.scores ++ [⟨score, tid, now⟩]
  let sc2 := if 20 < sc.length then sc.drop (sc.length - 20) else sc
  ⟨sc2, jsRound (sumScores sc2) sc2.length, sc2.length⟩

/-- `recordPerformance(agentId, taskTypes, score, taskId)`, lines 217-232. -/
def recordPerformance (plog : PerfLog) (aid : String) (types : List String)
    (score tid now : Nat) : PerfLog :=
  let amap := (lookupA plog aid).getD []
  let amap2 := types.foldl
    (fun m ty => setA m ty (recordCat ((lookupA m ty).getD emptyCat) score tid now))
    amap
  setA plog aid amap2

/-- `getAgentOverallScore(agentId)`, lines 240-247.  Note the JS expression
  `t.avg || 50`: a category whose stored average is `0` contributes `50`. -/
def getAgentOverallScore (plog : PerfLog) (aid : String) : Nat :=
  match lookupA plog aid with
  | none => 50
  | some m =>
    if m.length = 0 then 50
    else
      jsRound (m.foldl (fun s p => s + (if p.2.avg = 0 then 50 else p.2.avg)) 0)
        m.length

/-- The claim's overall score: the rounded arithmetic mean of the
  per-category averages, `50` when the agent has no records. -/
def specOverall (plog : PerfLog) (aid : String) : Nat :=
  match lookupA plog aid with
  | none => 50
  | some m =>
    if m.length = 0 then 50
    else jsRound ((m.map (fun p => p.2.avg)).sum) m.length

/-- Amended overall score: a per-category average of `0` is replaced by `50`
  before the (rounded) mean is taken; an agent with no records scores `50`. -/
def specOverallAmended (plog : PerfLog) (aid : String) : Nat :=
  let cats := ((lookupA plog aid).getD []).map (fun p => p.2)
  if cats.isEmpty then 50
  else jsRound ((cats.map (fun c => if c.avg = 0 then 50 else c.avg)).sum) cats.length

/-! ## Output parser (`parseFiles` / `parseSubtasks` / `parseExecBlocks`,
lines 356-386)

The source scans the raw model text with three global regexes:

  - `===FILE===\s*\npath:\s*(.+)\n===CONTENT===\n([\s\S]*?)===END_FILE===`
  - `===SUBTASK===\s*\ntitle:\s*(.+)\nagent:\s*(.+)\ndescription:\s*([\s\S]*?)===END_SUBTASK===`
  - `===EXEC===\s*\ncwd:\s*(.+)\ncmd:\s*(.+)\n===END_EXEC===`

Each regex piece is modelled as a backtracking matcher on `List Char`:
`\s*\n` consumes the leading whitespace run through its last newline
(greedy `\s*` backtracks until the required `\n`); `\s*(.+)\n` skips
whitespace (newlines included) and captures the remainder of that line,
backtracking the `\s*` when the line would be empty; the lazy
`([\s\S]*?)` followed by a literal captures up to the first occurrence of
the literal.  `parseFiles` additionally removes the matched spans
(`output.replace(regex, '')`), trims, collapses runs of three or more
newlines to two, and trims again. -/

/-- Match a literal string at the head, returning the rest. -/
def lit (s : String) (cs : List Char) : Option (List Char) :=
  if listPrefix s.data cs then some (cs.drop s.data.length) else none

/-- Regex `\s*\n`: consume the maximal leading whitespace run up to and
  including its last newline; fail when the run has no newline. -/
def consumeWsNl (cs : List Char) : Option (List Char) :=
  let revRun := (cs.takeWhile isWS).reverse
  let rest := cs.dropWhile isWS
  let afterNl := revRun.takeWhile (fun c => !(c == '\n'))
  if afterNl.length = revRun.length then none
  else some (afterNl.reverse ++ rest)

/-- Regex `(.+)\n` anchored at the head: capture the non-empty remainder of
  the current line and consume its terminating newline. -/
def lineAt (cs : List Char) : Option (List Char × List Char) :=
  let cap := cs.takeWhile (fun c => !(c == '\n'))
  match cs.dropWhile (fun c => !(c == '\n')) with
  | [] => none
  | _ :: r => if cap.isEmpty then none else some (cap, r)

/-- Backtracking for `\s*(.+)\n`: try the largest whitespace skip first. -/
def lineBack (cs : List Char) : Nat → Option (List Char × List Char)
  | 0 => lineAt cs
  | i + 1 =>
    match lineAt (cs.drop (i + 1)) with
    | some r => some r
    | none => lineBack cs i

/-- Regex `\s*(.+)\n` anchored at the head. -/
def wsLine (cs : List Char) : Option (List Char × List Char) :=
  lineBack cs (cs.takeWhile isWS).length

/-- Split at the first occurrence of `pat`: the part before it and the part
  after it (the lazy `([\s\S]*?)` followed by the literal `pat`). -/
def splitOnList (pat : List Char) : List Char → Option (List Char × List Char)
  | [] => if pat.isEmpty then some ([], []) else none
  | c :: cs =>
    if listPrefix pat (c :: cs) then some ([], (c :: cs).drop pat.length)
    else
      match splitOnList pat cs with
      | some (pre, post) => some (c :: pre, post)
      | none => none

/-- One attempt of the FILE regex at the current position: on success the
  raw captures `(path, content)` and the input after the matched span. -/
def tryFile (cs : List Char) : Option ((List Char × List Char) × List Char) :=
  (lit "===FILE===" cs).bind fun c1 =>
  (consumeWsNl c1).bind fun c2 =>
  (lit "path:" c2).bind fun c3 =>
  (wsLine c3).bind fun pr =>
  (lit "===CONTENT===\n" pr.2).bind fun c4 =>
  (splitOnList "===END_FILE===".data c4).bind fun cr =>
  some ((pr.1, cr.1), cr.2)

/-- One attempt of the EXEC regex: captures `(cwd, cmd)`. -/
def tryExec (cs : List Char) : Option ((List Char × List Char) × List Char) :=
  (lit "===EXEC===" cs).bind fun c1 =>
  (consumeWsNl c1).bind fun c2 =>
  (lit "cwd:" c2).bind fun c3 =>
  (wsLine c3).bind fun cwdr =>
  (lit "cmd:" cwdr.2).bind fun c4 =>
  (wsLine c4).bind fun cmdr =>
  (lit "===END_EXEC===" cmdr.2).bind fun c5 =>
  some ((cwdr.1, cmdr.1), c5)

/-- One attempt of the SUBTASK regex: captures `(title, agent, description)`. -/
def trySubtask (cs : List Char) :
    Option ((List Char × List Char × List Char) × List Char) :=
  (lit "===SUBTASK===" cs).bind fun c1 =>
  (consumeWsNl c1).bind fun c2 =>
  (lit "title:" c2).bind fun c3 =>
  (wsLine c3).bind fun tr =>
  (lit "agent:" tr.2).bind fun c4 =>
  (wsLine c4).bind fun ar =>
  (lit "description:" ar.2).bind fun c5 =>
  (splitOnList "===END_SUBTASK===".data (c5.dropWhile isWS)).bind fun dr =>
  some ((tr.1, ar.1, dr.1), dr.2)

/-- The `regex.exec` / `String.replace` scan of `parseFiles`: walk left to
  right, collect every match, and keep unmatched characters as residue. -/
def parseFilesCore : Nat → List Char → List (List Char × List Char) × List Char
  | 0, cs => ([], cs)
  | _ + 1, [] => ([], [])
  | fuel + 1, c :: cs =>
    match tryFile (c :: cs) with
    | some (entry, rest) =>
      let r := parseFilesCore fuel rest
      (entry :: r.1, r.2)
    | none =>
      let r := parseFilesCore fuel cs
      (r.1, c :: r.2)

/-- A skip matcher: the input after one recognized block of some kind. -/
def skipOf {α : Type} (m : List Char → Option (α × List Char)) :
    List Char → Option (List Char) :=
  fun cs => (m cs).map (fun r => r.2)

/-- First matcher of a list that recognizes a block at this position. -/
def firstSkip (ms : List (List Char → Option (List Char))) (cs : List Char) :
    Option (List Char) :=
  match ms with
  | [] => none
  | m :: t =>
    match m cs with
    | some r => some r
    | none => firstSkip t cs

/-- Remove every recognized block of the given kinds from the input
  (the spec's "the input with all recognized blocks removed"). -/
def stripBlocks (ms : List (List Char → Option (List Char))) :
    Nat → List Char → List Char
  | 0, cs => cs
  | _ + 1, [] => []
  | fuel + 1, c :: cs =>
    match firstSkip ms (c :: cs) with
    | some rest => stripBlocks ms fuel rest
    | none => c :: stripBlocks ms fuel cs

/-- Collapse every run of three or more newlines to exactly two
  (the source's `.replace(/\n{3,}/g, '\n\n')`); `run` counts the newlines
  already seen in the current run. -/
def collapseNlAux : Nat → List Char → List Char
  | _, [] => []
  | run, c :: cs =>
    if c == '\n' then
      if 2 ≤ run then collapseNlAux (run + 1) cs
      else '\n' :: collapseNlAux (run + 1) cs
    else c :: collapseNlAux 0 cs

def collapseNl (cs : List Char) : List Char := collapseNlAux 0 cs

/-- `parseFiles(output)`: the extracted files (`path` trimmed, `content`
  trim-ended) and the residual explanation. -/
def parseFiles (output : String) : List FileIntent × String :=
  let r := parseFilesCore output.data.length output.data
  (r.1.map (fun e => ⟨String.mk (trimCh e.1), String.mk (trimEndCh e.2)⟩),
   String.mk (trimCh (collapseNl (trimCh r.2))))

/-- `parseExecBlocks(output)`: every EXEC block, `cwd` and `cmd` trimmed. -/
def parseExecBlocksCore : Nat → List Char → List (List Char × List Char)
  | 0, _ => []
  | _ + 1, [] => []
  | fuel + 1, c :: cs =>
    match tryExec (c :: cs) with
    | some (entry, rest) => entry :: parseExecBlocksCore fuel rest
    | none => parseExecBlocksCore fuel cs

def parseExecBlocks (output : String) : List ExecIntent :=
  (parseExecBlocksCore output.data.length output.data).map
    (fun e => ⟨String.mk (trimCh e.1), String.mk (trimCh e.2)⟩)

/-- `parseSubtasks(output)`: every SUBTASK block, captures trimmed. -/
def parseSubtasksCore : Nat → List Char → List (List Char × List Char × List Char)
  | 0, _ => []
  | _ + 1, [] => []
  | fuel + 1, c :: cs =>
    match trySubtask (c :: cs) with
    | some (entry, rest) => entry :: parseSubtasksCore fuel rest
    | none => parseSubtasksCore fuel cs

def parseSubtasks (output : String) : List (String × String × String) :=
  (parseSubtasksCore output.data.length output.data).map
    (fun e => (String.mk (trimCh e.1), String.mk (trimCh e.2.1),
               String.mk (trimCh e.2.2)))

/-- The skip matchers of the three block kinds. -/
def fileSkip : List Char → Option (List Char) := skipOf tryFile
def execSkip : List Char → Option (List Char) := skipOf tryExec
def subtaskSkip : List Char → Option (List Char) := skipOf trySubtask

/-- The residual as the claim states it: the input with all recognized
  blocks of all three kinds removed and blank lines collapsed (the same
  trimming as the code applies). -/
def specResidual (output : String) : String :=
  String.mk (trimCh (collapseNl (trimCh
    (stripBlocks [fileSkip, execSkip, subtaskSkip] output.data.length output.data))))

/-- The residual amended to what the code computes: only FILE blocks are
  removed; EXEC and SUBTASK blocks stay in the explanation. -/
def specResidualAmended (output : String) : String :=
  String.mk (trimCh (collapseNl (trimCh
    (stripBlocks [fileSkip] output.data.length output.data))))

/-! ## Task classification (`classifyTask`, lines 164-184)

Each category's regex is an alternation of literals over the lowercased
`title + " " + description`; the few word-boundary and optional-dot atoms
(`\.py\b`, `node\.?js`, `\.js\b`, `\.ts\b`, `ui\b`) are approximated by
plain substring containment, which no claim depends on. -/

def TASK_TYPE_PATTERNS : List (String × List String) :=
  [("python", ["python", "django", "flask", "fastapi", "pip", ".py"]),
   ("javascript", ["javascript", "node.js", "nodejs", "express", "react", "vue",
                   "npm", ".js", ".ts"]),
   ("web", ["html", "css", "website", "frontend", "webpage", "landing page", "ui"]),
   ("api", ["api", "endpoint", "rest", "graphql", "websocket", "http"]),
   ("test", ["test", "spec", "coverage", "jest", "mocha", "pytest", "unittest"]),
   ("refactor", ["refactor", "clean", "simplify", "extract", "optimize", "improve"]),
   ("docs", ["doc", "readme", "explain", "comment", "document", "markdown"]),
   ("devops", ["docker", "deploy", "ci", "cd", "pipeline", "kubernetes", "nginx"]),
   ("data", ["database", "sql", "mongo", "redis", "csv", "json", "data", "scrape",
             "crawl"]),
   ("tool", ["tool", "script", "cli", "utility", "helper", "automation", "bot"])]

def classifyTask (title description : String) : List String :=
  let text := strToLower (title ++ " " ++ description)
  let types := (TASK_TYPE_PATTERNS.filter
    (fun p => p.2.any (fun pat => strContains text pat))).map (fun p => p.1)
  if types.isEmpty then ["general"] else types

/-! ## Tasks and agents (state fields touched by the modelled operations) -/

inductive AStatus where
  | idle | working | cooldown | offline | error
deriving DecidableEq

inductive Risk where
  | low | high
deriving DecidableEq

inductive Priority where
  | critical | high | medium | low
deriving DecidableEq

structure Agent where
  id : String
  provider : String
  status : AStatus
  currentTaskId : Option Nat
  cooldownUntil : Option Nat
  errorCount : Nat
deriving DecidableEq

structure TaskResult where
  success : Bool
  output : String
  tokensUsed : Nat
  files : List String
  fileContents : List FileIntent
  execBlocks : List ExecIntent
deriving DecidableEq

/-- A task; `TASK-NNN` ids are modelled by their numeric counter value. -/
structure Task where
  id : Nat
  title : String
  description : String
  status : TStatus
  risk : Risk
  priority : Priority
  assignedAgentId : Option String
  createdBy : String
  parentTaskId : Option Nat
  depth : Nat
  preferredAgentId : String
  tags : List String
  result : Option TaskResult
  createdAt : Nat
  startedAt : Option Nat
  completedAt : Option Nat
deriving DecidableEq

/-- The low-risk title test `/test|doc|readme|comment|type|hello|simple|example/i`. -/
def lowRiskTitle (title : String) : Bool :=
  ["test", "doc", "readme", "comment", "type", "hello", "simple",
   "example"].any (fun pat => strContains (strToLower title) pat)

/-- `createTask(title, description, preferredAgentId)`, lines 950-969: the
  created task (the source then pushes it onto `tasks`).  `counter` is the
  pre-increment `taskCounter`, `autoApprove` the `autoApproveAll` flag. -/
def createTask (autoApprove : Bool) (counter now : Nat)
    (title description : String) (preferredAgentId : Option String) : Task :=
  { id := counter + 1
    title := title
    description := description
    status := TStatus.pending
    risk := if autoApprove then Risk.low
            else if lowRiskTitle title then Risk.low else Risk.high
    priority := Priority.medium
    assignedAgentId := none
    createdBy := "user"
    parentTaskId := none
    depth := 0
    preferredAgentId := preferredAgentId.getD "auto"
    tags := classifyTask title description
    result := none
    createdAt := now
    startedAt := none
    completedAt := none }

/-! ## Task-creation entry points (`handleCommand` lines 874-919, REST
`POST /api/task` lines 972-976, subtask spawning in `executeTask`
lines 777-787)

All entry points funnel into `createTask`.  The world threads the task
list, the id counter and the `autoApproveAll` flag; dispatch, execution
and approval touch neither `priority` nor `depth` of existing tasks, so
the creation operations are the complete set of depth/priority writers. -/

structure World where
  tasks : List Task
  counter : Nat
  autoApprove : Bool
  now : Nat

def emptyWorld : World := { tasks := [], counter := 0, autoApprove := true, now := 0 }

/-- Create one task and push it (`createTask` body around `tasks.push`). -/
def pushTask (w : World) (title description : String)
    (pref : Option String) : World :=
  { w with
      tasks := w.tasks ++ [createTask w.autoApprove w.counter w.now title description pref]
      counter := w.counter + 1 }

/-- A SUBTASK declaration parsed from model output. -/
structure SubDecl where
  title : String
  agent : String
  description : String
deriving DecidableEq

/-- Spawn one child task (lines 778-786): `createTask(sub.title,
  sub.description, sub.agent)` followed by the in-place mutations
  `parentTaskId = task.id`, `depth = (task.depth || 0) + 1`,
  `createdBy = agent:<id>`. -/
def spawnChild (w : World) (parent : Task) (execAgentId : String)
    (sub : SubDecl) : World :=
  let t := createTask w.autoApprove w.counter w.now sub.title sub.description
    (some sub.agent)
  let t2 := { t with
                parentTaskId := some parent.id
                depth := parent.depth + 1
                createdBy := "agent:" ++ execAgentId }
  { w with tasks := w.tasks ++ [t2], counter := w.counter + 1 }

def findTask (ts : List Task) (tid : Nat) : Option Task :=
  ts.find? (fun t => t.id == tid)

/-- The subtask-spawning step of `executeTask` (line 777): children are
  created only when the block list is non-empty and `task.depth < 3`. -/
def executeSpawns (w : World) (parentId : Nat) (execAgentId : String)
    (subs : List SubDecl) : World :=
  match findTask w.tasks parentId with
  | none => w
  | some parent =>
    if subs.length > 0 ∧ parent.depth < 3 then
      subs.foldl (fun w' sub => spawnChild w' parent execAgentId sub) w
    else w

/-- The public task-creating operations of the server. -/
inductive EntryOp where
  /-- `command:createTask` with a single (optional) agent id. -/
  | clientCreate (title : String) (description : Option String)
      (agentId : Option String)
  /-- `command:createTask` with a non-empty `agentIds` array. -/
  | clientCreateMulti (title : String) (description : Option String)
      (agentIds : List String)
  /-- `POST /api/task`; a falsy title is rejected with a 400. -/
  | restCreate (title : String) (description : Option String)
      (agentId : Option String)
  /-- Subtask spawning after a parent task's execution. -/
  | spawnSubs (parentId : Nat) (execAgentId : String) (subs : List SubDecl)
  /-- `command:toggleAutoApprove`. -/
  | toggleAutoApprove

def applyEntry (w : World) : EntryOp → World
  | EntryOp.clientCreate title desc agentId =>
    pushTask w title (desc.getD title) agentId
  | EntryOp.clientCreateMulti title desc agentIds =>
    if agentIds.isEmpty then pushTask w title (desc.getD title) none
    else agentIds.foldl (fun w' aid => pushTask w' title (desc.getD title) (some aid)) w
  | EntryOp.restCreate title desc agentId =>
    if title = "" then w else pushTask w title (desc.getD title) agentId
  | EntryOp.spawnSubs parentId execAgentId subs =>
    executeSpawns w parentId execAgentId subs
  | EntryOp.toggleAutoApprove => { w with autoApprove := !w.autoApprove }

def applyAll (ops : List EntryOp) : World := ops.foldl applyEntry emptyWorld

/-! ## Dispatch loop (`runDispatch`, lines 821-839)

`pickAgent`'s performance-weighted random draw among the top three scored
candidates (lines 671-705) is abstracted by a selection oracle `σ`; the
deterministic preferred-agent branch (lines 666-669) is modelled exactly.
The loop body marks the chosen agent `working` and the task `active` and
launches `executeTask` concurrently (which is therefore not part of the
tick itself). -/

def isBridgeProvider (p : String) : Bool :=
  p == "cursor-bridge" || p == "copilot-bridge"

/-- `getCallableAgents()`, lines 653-660. -/
def getCallableAgents (agents : List Agent) : List Agent :=
  agents.filter (fun a =>
    a.status == AStatus.idle && !isBridgeProvider a.provider
      && !(a.status == AStatus.offline))

/-- `pickAgent(preferredAgentId, ...)`, lines 662-706, with the weighted
  random choice abstracted by `σ`. -/
def pickAgent (σ : List Agent → Option Agent) (agents : List Agent)
    (pref : String) : Option Agent :=
  let available := getCallableAgents agents
  if available.isEmpty then none
  else if pref ≠ "" ∧ pref ≠ "auto" then
    match available.find? (fun a => a.id == pref) with
    | some a => some a
    | none => σ available
  else σ available

structure DState where
  agents : List Agent
  tasks : List Task
deriving DecidableEq

/-- One iteration of the dispatch loop body for a pending task id. -/
def dispatchStep (σ : List Agent → Option Agent) (now : Nat)
    (st : DState) (tid : Nat) : DState :=
  match findTask st.tasks tid with
  | none => st
  | some task =>
    match pickAgent σ st.agents task.preferredAgentId with
    | none => st
    | some ag =>
      { agents := st.agents.map (fun a =>
          if a.id == ag.id then
            { a with status := AStatus.working, currentTaskId := some tid }
          else a)
        tasks := st.tasks.map (fun t =>
          if t.id == tid then
            { t with status := TStatus.active, assignedAgentId := some ag.id,
                     startedAt := some now }
          else t) }

/-- `runDispatch()`: iterate over the snapshot of pending tasks.  The
  source has no concurrency-cap test anywhere in this loop. -/
def runDispatch (σ : List Agent → Option Agent) (now : Nat) (st : DState) : DState :=
  ((st.tasks.filter (fun t => t.status == TStatus.pending)).map (fun t => t.id)).foldl
    (dispatchStep σ now) st

def countWorking (st : DState) : Nat :=
  (st.agents.filter (fun a => a.status == AStatus.working)).length

/-- Six idle non-bridge agents and six pending tasks, each task preferring
  a distinct agent: a reachable dispatch-tick input. -/
def mkIdleAgent (aid : String) : Agent :=
  { id := aid, provider := "openai-compatible", status := AStatus.idle,
    currentTaskId := none, cooldownUntil := none, errorCount := 0 }

def mkPendingTask (tid : Nat) (pref : String) : Task :=
  { id := tid, title := "t", description := "t", status := TStatus.pending,
    risk := Risk.low, priority := Priority.medium, assignedAgentId := none,
    createdBy := "user", parentTaskId := none, depth := 0,
    preferredAgentId := pref, tags := ["general"], result := none,
    createdAt := 0, startedAt := none, completedAt := none }

def sixAgentState : DState :=
  { agents := [mkIdleAgent "a1", mkIdleAgent "a2", mkIdleAgent "a3",
               mkIdleAgent "a4", mkIdleAgent "a5", mkIdleAgent "a6"]
    tasks := [mkPendingTask 1 "a1", mkPendingTask 2 "a2", mkPendingTask 3 "a3",
              mkPendingTask 4 "a4", mkPendingTask 5 "a5", mkPendingTask 6 "a6"] }

/-! ## Failure handling in `executeTask` (lines 792-817)

The catch block: the task is failed, the agent's error counter bumped,
the failure scored and recorded, and on HTTP 429 a 60-second cooldown is
set; the finally block returns a still-`working` agent to `idle` and
clears `currentTaskId`. -/

structure JsError where
  status : Option Nat
  message : String
deriving DecidableEq

/-- The transport-message test inside `isApiError`: the message is truthy
  and mentions a timeout or a refused connection. -/
def transportMsg (m : String) : Bool :=
  (m ≠ "") && (strContains m "timed out" || strContains m "timeout"
    || strContains m "ECONNREFUSED")

/-- `isApiError` (lines 798-799): status 400/500/502/503 or a
  timeout/connection-refused message — 429 is not in the list. -/
def isApiError (e : JsError) : Bool :=
  e.status == some 400 || e.status == some 500 || e.status == some 502
    || e.status == some 503 || transportMsg e.message

/-- The failure score (line 800): `isApiError ? 25 : 0`. -/
def errFailScore (e : JsError) : Nat := if isApiError e then 25 else 0

/-- The whole catch + finally path of `executeTask` on error `e`:
  the updated task, the updated agent, and the updated performance log. -/
def handleTaskFailure (e : JsError) (now : Nat) (t : Task) (a : Agent)
    (plog : PerfLog) : Task × Agent × PerfLog :=
  let t1 := { t with
                status := TStatus.failed
                completedAt := some now
                result := some { success := false, output := e.message,
                                 tokensUsed := 0, files := [], fileContents := [],
                                 execBlocks := [] } }
  let a1 := { a with errorCount := a.errorCount + 1 }
  let failTypes := classifyTask t.title t.description
  let plog1 := recordPerformance plog a.id failTypes (errFailScore e) t.id now
  let a2 := if e.status == some 429 then
              { a1 with cooldownUntil := some (now + 60000),
                        status := AStatus.cooldown }
            else a1
  let a3 := { a2 with
                status := if a2.status = AStatus.working then AStatus.idle else a2.status
                currentTaskId := none }
  (t1, a3, plog1)

/-! ## Review approval and rejection (`handleCommand` lines 901-911,
`approveTask` lines 922-948)

`written` accumulates the absolute paths of performed file writes,
`executed` the commands actually run.  `approveTask` checks only that the
task exists and has a result — never its status. -/

structure ExecState where
  tasks : List Task
  written : List String
  executed : List ExecIntent
deriving DecidableEq

/-- `command:rejectTask`: mark the task cancelled. -/
def rejectTask (st : ExecState) (tid : Nat) (now : Nat) : ExecState :=
  { st with tasks := st.tasks.map (fun t =>
      if t.id == tid then { t with status := TStatus.cancelled, completedAt := some now }
      else t) }

/-- `approveTask(taskId)`: write the pending files, run the pending
  commands, mark the task completed. -/
def approveTask (root : String) (st : ExecState) (tid : Nat) (now : Nat) : ExecState :=
  match findTask st.tasks tid with
  | none => st
  | some task =>
    match task.result with
    | none => st
    | some r =>
      let st1 :=
        if r.fileContents.length > 0 then
          let st' := { st with written := st.written ++ writeFilesResolved root r.fileContents }
          if r.execBlocks.length > 0 then
            { st' with executed := st'.executed ++ runExecBlocks root r.execBlocks }
          else st'
        else st
      { st1 with tasks := st1.tasks.map (fun t =>
          if t.id == tid then { t with status := TStatus.completed, completedAt := some now }
          else t) }

/-- A parsed result holding one file intent and no commands. -/
def reviewResult : TaskResult :=
  { success := true, output := "done", tokensUsed := 100,
    files := ["app/a.txt"], fileContents := [⟨"app/a.txt", "hello"⟩],
    execBlocks := [] }

/-- A task sitting in review with one parsed file intent. -/
def reviewTask : Task :=
  { id := 1, title := "refactor core", description := "refactor the core module",
    status := TStatus.review, risk := Risk.high, priority := Priority.medium,
    assignedAgentId := some "a1", createdBy := "user", parentTaskId := none,
    depth := 0, preferredAgentId := "auto", tags := ["refactor"],
    result := some reviewResult,
    createdAt := 0, startedAt := some 1, completedAt := none }

def reviewState : ExecState := { tasks := [reviewTask], written := [], executed := [] }

/-- The state after rejecting the review task and then approving it. -/
def rejectedApproved : ExecState := approveTask WROOT (rejectTask reviewState 1 50) 1 60

/-! ## Invariants and concrete fixtures used by the theorems -/

/-- The spec's per-cell performance invariant: at most 20 retained scores,
  `count` equal to the list length, `avg` the rounded mean. -/
def CatOK (c : CatLog) : Prop :=
  c.scores.length ≤ 20 ∧ c.count = c.scores.length
    ∧ c.avg = jsRound (sumScores c.scores) c.scores.length

/-- The performance invariant over every `(agent, category)` cell. -/
def PerfInv (plog : PerfLog) : Prop := ∀ aid ty, CatOK (lookCat plog aid ty)

/-- Every task of the world has depth at most 3. -/
def DepthBounded (w : World) : Prop := ∀ t ∈ w.tasks, t.depth ≤ 3

/-- Every task of the world has priority `medium`. -/
def AllMedium (w : World) : Prop := ∀ t ∈ w.tasks, t.priority = Priority.medium

/-- A raw model output consisting of exactly one well-formed EXEC block. -/
def execOnlyOutput : String := "===EXEC===\ncwd: app\ncmd: npm test\n===END_EXEC==="

/-- A rate-limit error as surfaced by the OpenAI client: HTTP status 429,
  message without any timeout/connection-refused marker. -/
def rateLimitErr : JsError := { status := some 429, message := "Rate limit exceeded" }

/-- The failure-path outcome for `rateLimitErr` on a fresh agent and task. -/
def rateLimitOut : Task × Agent × PerfLog :=
  handleTaskFailure rateLimitErr 1000 (mkPendingTask 7 "auto") (mkIdleAgent "agent-a") []

/-- A performance log reached by recording a single score of 0 (a failed
  task): the stored per-category average is 0. -/
def zeroAvgLog : PerfLog := recordPerformance [] "a1" ["api"] 0 1 5

/-- A world holding a single task at the depth cap. -/
def depth3Task : Task := { mkPendingTask 1 "auto" with depth := 3 }

def depth3World : World :=
  { tasks := [depth3Task], counter := 1, autoApprove := true, now := 0 }

/-- A subtask declaration for the depth-cap fixture. -/
def subDeclFix : SubDecl := { title := "s", agent := "auto", description := "d" }

/-- Fixtures for the amended rate-limit witness. -/
def cwErr : JsError := { status := some 429, message := "boom" }
def cwTask : Task := mkPendingTask 9 "auto"
def cwAgent : Agent := mkIdleAgent "agent-b"

/-! ## Helper lemmas -/

/-- The source's else-if token bucket equals the interval-style bucket with
  `T = 0` landing in the 12-point branch. -/
theorem tokenBucket_eq (T : Nat) :
    (if 0 < T ∧ T < 500 then (15 : Nat)
     else if T < 2000 then 12
     else if T < 5000 then 8
     else if T < 10000 then 4
     else 0)
    = (if 0 < T ∧ T < 500 then 15
       else if T = 0 ∨ (500 ≤ T ∧ T < 2000) then 12
       else if 2000 ≤ T ∧ T < 5000 then 8
       else if 5000 ≤ T ∧ T < 10000 then 4
       else 0) := by
  split_ifs <;> omega

/-- The residue of the `parseFiles` scan is the input with the recognized
  FILE spans removed. -/
theorem parseFilesCore_resid (fuel : Nat) (cs : List Char) :
    (parseFilesCore fuel cs).2 = stripBlocks [fileSkip] fuel cs := by
  induction fuel generalizing cs with
  | zero => rfl
  | succ f ih =>
    cases cs with
    | nil => rfl
    | cons c cs =>
      simp only [parseFilesCore, stripBlocks, firstSkip]
      cases h : tryFile (c :: cs) with
      | none =>
        have hf : fileSkip (c :: cs) = none := by simp [fileSkip, skipOf, h]
        simp [hf, h, ih]
      | some r =>
        have hf : fileSkip (c :: cs) = some r.2 := by simp [fileSkip, skipOf, h]
        simp [hf, h, ih]

/-- Folding an addition equals the sum of the mapped list. -/
theorem foldl_add_map {α : Type} (g : α → Nat) (l : List α) :
    ∀ init : Nat, l.foldl (fun s p => s + g p) init = init + (l.map g).sum := by
  induction l with
  | nil => intro init; simp
  | cons p t ih => intro init; simp [ih, Nat.add_assoc]

/-- A preserved predicate survives a fold. -/
theorem foldl_preserves {α β : Type} (P : α → Prop) (f : α → β → α)
    (l : List β) (h : ∀ a b, P a → P (f a b)) :
    ∀ a, P a → P (l.foldl f a) := by
  induction l with
  | nil => intro a ha; exact ha
  | cons b t ih =>
    intro a ha
    simp only [List.foldl_cons]
    exact ih (f a b) (h a b ha)

/-- Lookup after an association-list update. -/
theorem lookupA_setA {α : Type} (l : List (String × α)) (k k' : String) (v : α) :
    lookupA (setA l k v) k' = if k = k' then some v else lookupA l k' := by
  induction l with
  | nil => simp [setA, lookupA]
  | cons p t ih =>
    obtain ⟨k0, v0⟩ := p
    by_cases h0 : k0 = k
    · subst h0
      simp only [setA, if_pos rfl, lookupA]
      split_ifs <;> simp_all [lookupA]
    · simp only [setA, if_neg h0, lookupA, ih]
      split_ifs <;> simp_all

/-- One category update keeps the per-cell invariant, unconditionally. -/
theorem recordCat_ok (lg : CatLog) (s tid now : Nat) :
    CatOK (recordCat lg s tid now) := by
  unfold recordCat CatOK
  dsimp only
  refine ⟨?_, rfl, rfl⟩
  split_ifs with h
  · rw [List.length_drop]; omega
  · simp only [List.length_append, List.length_cons, List.length_nil] at h ⊢
    omega

/-- The inner per-agent fold of `recordPerformance` keeps the invariant on
  every category cell. -/
theorem recordInner_ok (s tid now : Nat) (types : List String)
    (m : List (String × CatLog))
    (h : ∀ ty, CatOK ((lookupA m ty).getD emptyCat)) :
    ∀ ty, CatOK ((lookupA
      (types.foldl
        (fun m' ty' => setA m' ty' (recordCat ((lookupA m' ty').getD emptyCat) s tid now))
        m) ty).getD emptyCat) := by
  refine foldl_preserves
    (fun m' => ∀ ty, CatOK ((lookupA m' ty).getD emptyCat)) _ types ?_ m h
  intro m' ty0 hm ty
  rw [lookupA_setA]
  split_ifs with he
  · exact recordCat_ok _ s tid now
  · exact hm ty

/-- `findTask` through an id-preserving conditional update of the list. -/
theorem findTask_map_update (ts : List Task) (tid : Nat) (f : Task → Task)
    (hf : ∀ t, (f t).id = t.id) :
    findTask (ts.map (fun t => if t.id == tid then f t else t)) tid
      = (findTask ts tid).map f := by
  induction ts with
  | nil => rfl
  | cons t ts ih =>
    by_cases h : t.id == tid
    · simp only [findTask, List.map_cons, if_pos h, List.find?]
      rw [show ((f t).id == tid) = true by rw [hf]; exact h, h]
      rfl
    · simp only [findTask, List.map_cons, if_neg h, List.find?] at ih ⊢
      rw [Bool.of_not_eq_true h]
      exact ih

/-- Pushing a fresh task preserves the depth bound (new tasks have depth 0). -/
theorem pushTask_depth (w : World) (title desc : String) (pref : Option String)
    (h : DepthBounded w) : DepthBounded (pushTask w title desc pref) := by
  intro t ht
  simp only [pushTask, List.mem_append, List.mem_singleton] at ht
  rcases ht with ht | rfl
  · exact h t ht
  · simp [createTask]

/-- Spawning a child of a parent below the cap preserves the depth bound. -/
theorem spawnChild_depth (w : World) (p : Task) (aid : String) (sub : SubDecl)
    (hp : p.depth < 3) (h : DepthBounded w) : DepthBounded (spawnChild w p aid sub) := by
  intro t ht
  simp only [spawnChild, List.mem_append, List.mem_singleton] at ht
  rcases ht with ht | rfl
  · exact h t ht
  · show p.depth + 1 ≤ 3
    omega

/-- Every operation of the entry-point language preserves the depth bound. -/
theorem applyEntry_depth (w : World) (op : EntryOp) (h : DepthBounded w) :
    DepthBounded (applyEntry w op) := by
  cases op with
  | clientCreate title desc aid => exact pushTask_depth w _ _ _ h
  | clientCreateMulti title desc aids =>
    simp only [applyEntry]
    split_ifs
    · exact pushTask_depth w _ _ _ h
    · exact foldl_preserves DepthBounded _ aids
        (fun w' aid' h' => pushTask_depth w' _ _ _ h') w h
  | restCreate title desc aid =>
    simp only [applyEntry]
    split_ifs
    · exact h
    · exact pushTask_depth w _ _ _ h
  | spawnSubs pid aid subs =>
    simp only [applyEntry, executeSpawns]
    cases hf : findTask w.tasks pid with
    | none => exact h
    | some p =>
      dsimp only
      split_ifs with hg
      · exact foldl_preserves DepthBounded _ subs
          (fun w' sub h' => spawnChild_depth w' p aid sub hg.2 h') w h
      · exact h
  | toggleAutoApprove => exact fun t ht => h t ht

/-- Pushing a fresh task preserves the all-medium priority invariant. -/
theorem pushTask_medium (w : World) (title desc : String) (pref : Option String)
    (h : AllMedium w) : AllMedium (pushTask w title desc pref) := by
  intro t ht
  simp only [pushTask, List.mem_append, List.mem_singleton] at ht
  rcases ht with ht | rfl
  · exact h t ht
  · rfl

/-- Spawning a child preserves the all-medium priority invariant (the
  post-creation mutations touch neither `priority` nor any other task). -/
theorem spawnChild_medium (w : World) (p : Task) (aid : String) (sub : SubDecl)
    (h : AllMedium w) : AllMedium (spawnChild w p aid sub) := by
  intro t ht
  simp only [spawnChild, List.mem_append, List.mem_singleton] at ht
  rcases ht with ht | rfl
  · exact h t ht
  · rfl

/-- Every operation of the entry-point language preserves all-medium. -/
theorem applyEntry_medium (w : World) (op : EntryOp) (h : AllMedium w) :
    AllMedium (applyEntry w op) := by
  cases op with
  | clientCreate title desc aid => exact pushTask_medium w _ _ _ h
  | clientCreateMulti title desc aids =>
    simp only [applyEntry]
    split_ifs
    · exact pushTask_medium w _ _ _ h
    · exact foldl_preserves AllMedium _ aids
        (fun w' aid' h' => pushTask_medium w' _ _ _ h') w h
  | restCreate title desc aid =>
    simp only [applyEntry]
    split_ifs
    · exact h
    · exact pushTask_medium w _ _ _ h
  | spawnSubs pid aid subs =>
    simp only [applyEntry, executeSpawns]
    cases hf : findTask w.tasks pid with
    | none => exact h
    | some p =>
      dsimp only
      split_ifs with hg
      · exact foldl_preserves AllMedium _ subs
          (fun w' sub h' => spawnChild_medium w' p aid sub h') w h
      · exact h
  | toggleAutoApprove => exact fun t ht => h t ht

/-- The empty performance log satisfies the performance invariant. -/
theorem perfInv_empty : PerfInv ([] : PerfLog) := by
  intro aid ty
  show CatOK emptyCat
  exact ⟨by decide, rfl, rfl⟩

/-! ## Claim theorems -/

/-- Claim C1 (counterexample): an error carrying HTTP status 429 whose
  message has no timeout/connection-refused marker does set the cooldown,
  the cooldown status and the failed task status, but records an RL score
  of 0 — not 25 — on the task's categories. -/
theorem C1_score25_counterexample :
    rateLimitOut.1.status = TStatus.failed ∧
    rateLimitOut.2.1.status = AStatus.cooldown ∧
    rateLimitOut.2.1.cooldownUntil = some 61000 ∧
    (lookCat rateLimitOut.2.2 "agent-a" "general").scores.map SEntry.score = [0] ∧
    ¬ (lookCat rateLimitOut.2.2 "agent-a" "general").scores.map SEntry.score = [25] := by
  decide

/-- Claim C1 (amended): on an error with HTTP status 429 the task is failed
  with a completion timestamp, the agent enters a 60 s cooldown, and the
  RL score recorded on the task's categories is 25 only when the message
  carries a timeout/connection-refused marker, otherwise 0 (status 429 is
  not in the `isApiError` status list). -/
theorem C1_rate_limit_amended (e : JsError) (now : Nat) (t : Task) (a : Agent)
    (plog : PerfLog) (h : e.status = some 429) :
    (handleTaskFailure e now t a plog).1.status = TStatus.failed ∧
    (handleTaskFailure e now t a plog).1.completedAt = some now ∧
    (handleTaskFailure e now t a plog).2.1.status = AStatus.cooldown ∧
    (handleTaskFailure e now t a plog).2.1.cooldownUntil = some (now + 60000) ∧
    (handleTaskFailure e now t a plog).2.2 =
      recordPerformance plog a.id (classifyTask t.title t.description)
        (if transportMsg e.message then 25 else 0) t.id now := by
  simp [handleTaskFailure, errFailScore, isApiError, h]

/-- Claim C1 (witness): the amended statement at a concrete 429 error. -/
theorem C1_rate_limit_witness :
    (handleTaskFailure cwErr 5 cwTask cwAgent []).1.status = TStatus.failed ∧
    (handleTaskFailure cwErr 5 cwTask cwAgent []).1.completedAt = some 5 ∧
    (handleTaskFailure cwErr 5 cwTask cwAgent []).2.1.status = AStatus.cooldown ∧
    (handleTaskFailure cwErr 5 cwTask cwAgent []).2.1.cooldownUntil = some (5 + 60000) ∧
    (handleTaskFailure cwErr 5 cwTask cwAgent []).2.2 =
      recordPerformance [] cwAgent.id (classifyTask cwTask.title cwTask.description)
        (if transportMsg cwErr.message then 25 else 0) cwTask.id 5 :=
  C1_rate_limit_amended cwErr 5 cwTask cwAgent [] rfl

/-- Claim C2: path confinement fails in the code.  A FileIntent whose
  relative path climbs out of the workspace root resolves outside the root
  and is written anyway (`writeFiles` has no containment check), and a
  CommandIntent whose resolved cwd is a sibling directory sharing the root
  as a string prefix — or the root itself, which is not strictly inside —
  passes the `startsWith` guard and is executed. -/
theorem C2_path_confinement_violated :
    writeFilesResolved WROOT [⟨"../escape.txt", "boom"⟩] = ["/srv/agentos/escape.txt"] ∧
    isUnder WROOT "/srv/agentos/escape.txt" = false ∧
    runExecBlocks WROOT [⟨"../workspace-evil", "rm -rf ."⟩]
      = [⟨"../workspace-evil", "rm -rf ."⟩] ∧
    isUnder WROOT (joinPath WROOT "../workspace-evil") = false ∧
    runExecBlocks WROOT [⟨".", "ls"⟩] = [⟨".", "ls"⟩] ∧
    joinPath WROOT "." = WROOT := by
  decide

/-- Claim C3 (counterexample): at `F = 0`, `E = 0`, no outcomes, `T = 0`,
  non-failed status and markerless raw text, the code scores 37 (the
  `else if (tokensUsed < 2000)` branch grants 12 for zero tokens) while the
  spec's reference formula yields 25. -/
theorem C3_formula_counterexample :
    scoreOutput TStatus.completed "" 0 0 0 none = 37 ∧
    specScore TStatus.completed "" 0 0 0 none = 25 ∧
    scoreOutput TStatus.completed "" 0 0 0 none
      ≠ specScore TStatus.completed "" 0 0 0 none := by
  decide

/-- Claim C3 (amended): the code's score equals the reference formula with
  two amendments — each FILE marker present contributes 5 on its own, and
  the 12-point token bucket also catches `T = 0`. -/
theorem C3_score_amended (status : TStatus) (raw : String) (T F E : Nat)
    (R : Option (List Bool)) :
    scoreOutput status raw T F E R = specScoreAmended status raw T F E R := by
  simp only [scoreOutput, specScoreAmended, tokenBucket_eq]

/-- Claim C4: the dev server's dispatch tick has no concurrency cap — from
  six idle agents and six pending tasks (each preferring a distinct agent),
  one `runDispatch` call leaves six agents simultaneously `working`,
  contradicting the claimed bound of five.  The selection oracle for the
  weighted random branch is irrelevant (`fun _ => none`): only the
  deterministic preferred-agent branch fires. -/
theorem C4_no_concurrency_cap :
    countWorking (runDispatch (fun _ => none) 0 sixAgentState) = 6 ∧
    ¬ countWorking (runDispatch (fun _ => none) 0 sixAgentState) ≤ 5 := by
  decide

/-- Claim C5 (counterexample): on a raw output consisting of exactly one
  well-formed EXEC block, the code's residual explanation keeps the block
  verbatim, whereas the claimed residual (all three block kinds removed,
  blank lines collapsed) is empty. -/
theorem C5_residual_counterexample :
    (parseFiles execOnlyOutput).2 = execOnlyOutput ∧
    specResidual execOnlyOutput = "" ∧
    (parseFiles execOnlyOutput).2 ≠ specResidual execOnlyOutput := by
  decide

/-- Claim C5 (amended): for every raw model text the residual explanation
  equals the input with only the recognized FILE blocks removed (EXEC and
  SUBTASK blocks are left in place), trimmed, with runs of three or more
  newlines collapsed to two, and trimmed again. -/
theorem C5_residual_amended (output : String) :
    (parseFiles output).2 = specResidualAmended output := by
  unfold parseFiles specResidualAmended
  simp [parseFilesCore_resid]

/-- Claim C6 (counterexample): after rejecting the review task and then
  approving it, the task is `completed` — not `cancelled` — and its file
  has been written: the approval overrides the rejection. -/
theorem C6_reject_wins_counterexample :
    (findTask rejectedApproved.tasks 1).map Task.status = some TStatus.completed ∧
    rejectedApproved.written = ["/srv/agentos/workspace/app/a.txt"] ∧
    rejectedApproved.written ≠ [] := by
  decide

/-- Claim C6 (amended): `approveTask` checks only that the task exists and
  has a result, never its status; approving a rejected task writes every
  pending file, runs the pending commands, and marks the task completed —
  approve wins, not reject. -/
theorem C6_approve_overrides_reject (root : String) (st : ExecState) (tid : Nat)
    (now1 now2 : Nat) (t : Task) (r : TaskResult)
    (hfind : findTask st.tasks tid = some t)
    (hres : t.result = some r)
    (hfiles : 0 < r.fileContents.length) :
    (findTask (approveTask root (rejectTask st tid now1) tid now2).tasks tid).map
        Task.status = some TStatus.completed ∧
    (approveTask root (rejectTask st tid now1) tid now2).written
      = st.written ++ writeFilesResolved root r.fileContents ∧
    (approveTask root (rejectTask st tid now1) tid now2).executed
      = st.executed ++
          (if 0 < r.execBlocks.length then runExecBlocks root r.execBlocks else []) := by
  have hmap : (rejectTask st tid now1).tasks
      = st.tasks.map (fun t0 =>
          if t0.id == tid then
            { t0 with status := TStatus.cancelled, completedAt := some now1 }
          else t0) := rfl
  have h1 : findTask (rejectTask st tid now1).tasks tid
      = some { t with status := TStatus.cancelled, completedAt := some now1 } := by
    rw [hmap, findTask_map_update st.tasks tid
      (fun t0 => { t0 with status := TStatus.cancelled, completedAt := some now1 })
      (fun _ => rfl), hfind]
    rfl
  have h2 : ∀ xs : List Task,
      findTask (xs.map (fun t0 =>
        if t0.id == tid then
          { t0 with status := TStatus.completed, completedAt := some now2 }
        else t0)) tid
      = (findTask xs tid).map
          (fun t0 => { t0 with status := TStatus.completed, completedAt := some now2 }) :=
    fun xs => findTask_map_update xs tid
      (fun t0 => { t0 with status := TStatus.completed, completedAt := some now2 })
      (fun _ => rfl)
  simp only [approveTask, h1]
  rw [hres]
  dsimp only
  rw [if_pos hfiles]
  by_cases hexec : 0 < r.execBlocks.length
  · rw [if_pos hexec]
    refine ⟨?_, rfl, by rw [if_pos hexec]; rfl⟩
    show (findTask ((rejectTask st tid now1).tasks.map (fun t0 =>
        if t0.id == tid then
          { t0 with status := TStatus.completed, completedAt := some now2 }
        else t0)) tid).map Task.status = some TStatus.completed
    rw [h2, h1]
    rfl
  · rw [if_neg hexec]
    refine ⟨?_, rfl, by rw [if_neg hexec]; exact (List.append_nil _).symm⟩
    show (findTask ((rejectTask st tid now1).tasks.map (fun t0 =>
        if t0.id == tid then
          { t0 with status := TStatus.completed, completedAt := some now2 }
        else t0)) tid).map Task.status = some TStatus.completed
    rw [h2, h1]
    rfl

/-- Claim C6 (witness): the amended statement at the concrete review task. -/
theorem C6_approve_overrides_witness :
    (findTask (approveTask WROOT (rejectTask reviewState 1 50) 1 60).tasks 1).map
        Task.status = some TStatus.completed ∧
    (approveTask WROOT (rejectTask reviewState 1 50) 1 60).written
      = [] ++ writeFilesResolved WROOT reviewResult.fileContents ∧
    (approveTask WROOT (rejectTask reviewState 1 50) 1 60).executed
      = [] ++
          (if 0 < reviewResult.execBlocks.length then
            runExecBlocks WROOT reviewResult.execBlocks else []) :=
  C6_approve_overrides_reject WROOT reviewState 1 50 60 reviewTask reviewResult
    (by decide) rfl (by decide)

/-- Claim C7: every task reachable through the entry points has depth at
  most 3, and spawning on a parent whose depth equals 3 creates nothing
  (the world is unchanged). -/
theorem C7_depth_bound :
    (∀ ops : List EntryOp, ∀ t ∈ (applyAll ops).tasks, t.depth ≤ 3) ∧
    (∀ (w : World) (pid : Nat) (aid : String) (subs : List SubDecl) (p : Task),
      findTask w.tasks pid = some p → p.depth = 3 →
      applyEntry w (EntryOp.spawnSubs pid aid subs) = w) := by
  constructor
  · intro ops
    refine foldl_preserves DepthBounded applyEntry ops applyEntry_depth emptyWorld ?_
    intro t ht
    simp [emptyWorld] at ht
  · intro w pid aid subs p hf hd
    simp only [applyEntry, executeSpawns, hf]
    rw [if_neg]
    intro hc
    omega

/-- Claim C7 (witness): the bound at a concretely created task, and the
  no-spawn behavior at a concrete depth-3 parent. -/
theorem C7_depth_witness :
    (createTask true 0 0 "hello" "hello" none).depth ≤ 3 ∧
    applyEntry depth3World (EntryOp.spawnSubs 1 "a1" [subDeclFix]) = depth3World :=
  ⟨C7_depth_bound.1 [EntryOp.clientCreate "hello" none none]
      (createTask true 0 0 "hello" "hello" none) (by decide),
   C7_depth_bound.2 depth3World 1 "a1" [subDeclFix] depth3Task (by decide) (by decide)⟩

/-- Claim C8: `recordPerformance` preserves the performance invariant: every
  `(agent, category)` cell keeps at most 20 scores (`slice(-20)` drops the
  oldest), `count` equal to the retained length, and `avg` equal to the
  rounded mean of the retained scores. -/
theorem C8_performance_invariant (plog : PerfLog) (aid : String)
    (types : List String) (score tid now : Nat) (h : PerfInv plog) :
    PerfInv (recordPerformance plog aid types score tid now) := by
  intro aid' ty'
  unfold lookCat recordPerformance
  rw [lookupA_setA]
  split_ifs with ha
  · dsimp only [Option.getD]
    exact recordInner_ok score tid now types _ (fun ty => h aid ty) ty'
  · exact h aid' ty'

/-- Claim C8 (witness): the invariant after one record on the empty log. -/
theorem C8_performance_witness :
    PerfInv (recordPerformance [] "a1" ["general"] 80 1 5) :=
  C8_performance_invariant [] "a1" ["general"] 80 1 5 perfInv_empty

/-- Claim C9 (counterexample): an agent whose only category average is 0
  (one recorded score of 0) gets overall 50 from the code — the JS
  `t.avg || 50` — while the rounded mean of its per-category averages is 0;
  50 is reached with records present, refuting the "exactly when" too. -/
theorem C9_overall_counterexample :
    getAgentOverallScore zeroAvgLog "a1" = 50 ∧
    specOverall zeroAvgLog "a1" = 0 ∧
    getAgentOverallScore zeroAvgLog "a1" ≠ specOverall zeroAvgLog "a1" := by
  decide

/-- Claim C9 (amended): the overall score is the rounded mean of the
  per-category averages with every 0 average replaced by 50, and an agent
  with no log entry scores 50 (though not only then). -/
theorem C9_overall_amended (plog : PerfLog) (aid : String) :
    getAgentOverallScore plog aid = specOverallAmended plog aid ∧
    (lookupA plog aid = none → getAgentOverallScore plog aid = 50) := by
  constructor
  · unfold getAgentOverallScore specOverallAmended
    cases hl : lookupA plog aid with
    | none => simp
    | some m =>
      cases m with
      | nil => simp
      | cons p tl =>
        simp only [Option.getD, List.length_cons, List.isEmpty_cons]
        rw [foldl_add_map (fun q => if q.2.avg = 0 then 50 else q.2.avg) (p :: tl) 0]
        simp only [List.map_map, Function.comp_def, List.length_map, Nat.zero_add,
          List.length_cons, List.map_cons, List.sum_cons]
        simp [List.isEmpty_cons]
  · intro hl
    unfold getAgentOverallScore
    rw [hl]

/-- Claim C9 (witness): the amended statement at the empty log. -/
theorem C9_overall_witness :
    getAgentOverallScore [] "a1" = specOverallAmended [] "a1" ∧
    getAgentOverallScore [] "a1" = 50 :=
  ⟨(C9_overall_amended [] "a1").1, (C9_overall_amended [] "a1").2 rfl⟩

/-- Claim C10: every task created through any entry point — client command
  (single or multi-agent), REST endpoint, or agent-spawned subtask — has
  priority `medium`; hence no two tasks of a reachable world differ in
  priority. -/
theorem C10_priority_medium :
    ∀ ops : List EntryOp, ∀ t ∈ (applyAll ops).tasks, t.priority = Priority.medium := by
  intro ops
  refine foldl_preserves AllMedium applyEntry ops applyEntry_medium emptyWorld ?_
  intro t ht
  simp [emptyWorld] at ht

/-- Claim C10 (witness): the priority of a concretely created task. -/
theorem C10_priority_witness :
    (createTask true 0 0 "a" "a" none).priority = Priority.medium :=
  C10_priority_medium [EntryOp.clientCreate "a" none none]
    (createTask true 0 0 "a" "a" none) (by decide)

end AgentOS
